import Mathlib

/-!
# Verification of the video-to-ascii-art rendering pipeline

Shallow embedding of the pure computational core of the repository:

* `config.py` — the `ASPECT_RATIO_CORRECTION` constant,
* `ascii_converter.py` — the luminance → charset-index mapping of
  `ASCIIConverter.frame_to_ascii` / `get_ascii_array` and the output-height
  computation of `ASCIIConverter.resize_frame`,
* `color_processor.py` — `ColorProcessor.rgb_to_ansi_16` and
  `ColorProcessor.rgb_to_256_color`,
* `video_processor.py` — `VideoProcessor.__init__`, `get_frames` and `close`,
* `audio_processor.py` — `AudioProcessor.extract_audio` and
  `AudioSynchronizer.wait_for_frame`.

Python floating-point arithmetic is modelled by exact rational arithmetic;
for the luminance index (`float32`) and the 6-level channel rounding
(`float64`) the two agree on every input in range, because the quantities
involved stay far enough from the truncation/rounding boundaries.
External collaborators (OpenCV capture handles, `ffmpeg`/`ffprobe`
subprocesses, the file system) are modelled as explicit environments whose
outcomes are parameters of the embedded functions.
-/

namespace VideoToAscii

/-! ## config.py -/

/-- Constant `ASPECT_RATIO_CORRECTION = 0.55` (config.py line 18), as an exact
rational. -/
def ASPECT_RATIO_CORRECTION : ℚ := 55 / 100

/-! ## ascii_converter.py — luminance mapping -/

/-- Charset index of a luminance sample: `ascii_converter.py` lines 80–83
(and identically lines 110–113) compute
`indices = (resized.astype(float32) / 255.0 * (charset_len - 1)).astype(int32)`,
i.e. the sample is normalized by 255 and scaled by `charset_len - 1`, and
the result truncated toward zero.  For samples in `[0,255]` the value is
nonnegative, so truncation is the floor, and the exact value
`s * (charset_len - 1) / 255` is natural-number division. -/
def lumIndex (charset_len : ℕ) (s : ℕ) : ℕ :=
  s * (charset_len - 1) / 255

/-- Per-pixel glyph choice `self.charset[idx]` (`ascii_converter.py`
line 86): look up the luminance index in the charset.  The lookup is total
here with `' '` as junk default; the index is proved in range below. -/
def mapLuminance (charset : List Char) (s : ℕ) : Char :=
  charset.getD (lumIndex charset.length s) ' '

/-- One row of `frame_to_ascii`: every pixel of the (already resized,
grayscale) row is mapped through the charset. -/
def frameRow_to_ascii (charset : List Char) (row : List ℕ) : List Char :=
  row.map (mapLuminance charset)

/-- The per-pixel core of `ASCIIConverter.frame_to_ascii` /
`get_ascii_array` (lines 79–94 / 109–119): map every luminance sample of
the resized frame to a glyph. -/
def frame_to_ascii (charset : List Char) (resized : List (List ℕ)) : List (List Char) :=
  resized.map (frameRow_to_ascii charset)

/-- The charset of the spec's worked example, `"@#. "`. -/
def exampleCharset : List Char := ['@', '#', '.', ' ']

/-! ## ascii_converter.py — resize geometry -/

/-- Output height `new_height = int(self.width * aspect_ratio * ASPECT_RATIO_CORRECTION)`
with `aspect_ratio = height / width` of the input frame
(`ascii_converter.py` lines 50–55).  Python `int()` truncates toward zero;
all quantities are nonnegative, so this is the floor of the exact rational
value. -/
def new_height (width h w : ℕ) : ℤ :=
  ⌊(width : ℚ) * ((h : ℚ) / (w : ℚ)) * ASPECT_RATIO_CORRECTION⌋

/-! ## color_processor.py -/

/-- Embedding of `ColorProcessor.rgb_to_ansi_16` (color_processor.py lines 39–70),
verbatim decision chain; `brightness = (r + g + b) // 3` is Python floor
division. -/
def rgb_to_ansi_16 (r g b : ℕ) : ℕ :=
  let brightness := (r + g + b) / 3
  if brightness < 50 then 30
  else if brightness > 200 then 37
  else if r > g ∧ r > b then 31
  else if g > r ∧ g > b then 32
  else if b > r ∧ b > g then 34
  else if r > b then 33
  else if g > b then 32
  else 34

/-- Channel quantization `round(c / 255 * 5)` for a channel value `c` (color_processor.py lines
85–87).  Python `round` is round-half-to-even, but `c*5/255 = c/51` is
never a half-integer (51 is odd), and the double-precision evaluation never
crosses a rounding boundary, so the result is the unique nearest integer:
`⌊(c·5/255) + 1/2⌋ = (10·c + 255) / 510` in natural-number division. -/
def roundChannel6 (c : ℕ) : ℕ :=
  (10 * c + 255) / 510

/-- Embedding of `ColorProcessor.rgb_to_256_color` (color_processor.py lines 72–90):
quantize each channel to 6 levels and combine into the 6×6×6 cube starting
at index 16. -/
def rgb_to_256_color (r g b : ℕ) : ℕ :=
  16 + 36 * roundChannel6 r + 6 * roundChannel6 g + roundChannel6 b

/-! ## audio_processor.py — AudioSynchronizer -/

/-- State of `AudioSynchronizer` (audio_processor.py lines 297–327):
frame rate, per-frame duration, optional session start timestamp and the
monotone frame counter.  All times are exact rationals standing for the
Python floats. -/
structure AudioSynchronizer where
  fps : ℚ
  frame_duration : ℚ
  start_time : Option ℚ
  frame_count : ℕ
deriving DecidableEq

/-- Constructor `AudioSynchronizer.__init__`: `frame_duration = 1.0 / fps if fps > 0
else 0.033` (line 312); `start_time = None`, `frame_count = 0`. -/
def AudioSynchronizer.init (fps : ℚ) : AudioSynchronizer :=
  ⟨fps, if 0 < fps then 1 / fps else 33 / 1000, none, 0⟩

/-- Embedding of `AudioSynchronizer.wait_for_frame` (audio_processor.py lines 329–359).
Parameters beyond the Python arguments model the environment read during
the call: `audio_playing` is `self.audio_processor and
self.audio_processor.is_playing`, `audio_time` is the value
`get_current_playback_time()` would return, and `now` is `time.time()`.
Returns the duration actually slept (`sleep_time` when positive, else `0`)
together with the updated synchronizer state. -/
def wait_for_frame (sync : AudioSynchronizer) (speed_multiplier processing_time : ℚ)
    (audio_playing : Bool) (audio_time now : ℚ) : ℚ × AudioSynchronizer :=
  let start := sync.start_time.getD now
  let expected_time := sync.frame_count * sync.frame_duration / speed_multiplier
  let actual_time := if audio_playing then audio_time else now - start
  let sleep_time := expected_time - actual_time - processing_time
  let slept := if 0 < sleep_time then sleep_time else 0
  (slept, ⟨sync.fps, sync.frame_duration, some start, sync.frame_count + 1⟩)

/-- The `expected_time` computed at line 343 for a given frame counter. -/
def expected_time (frame_count : ℕ) (frame_duration speed : ℚ) : ℚ :=
  frame_count * frame_duration / speed

/-! ## video_processor.py — get_frames -/

/-- Loop body of `VideoProcessor.get_frames` (video_processor.py lines
102–113) over an abstract finite decoder stream: `frame_num` counts every
decoded frame; a frame is yielded unless `skip > 0` and
`frame_num % (skip + 1) ≠ 0`; the loop ends when the decoder reports no
more data (end of the list). -/
def get_frames_aux (skip : ℕ) : ℕ → List α → List (ℕ × α)
  | _, [] => []
  | frame_num, frame :: rest =>
    if 0 < skip ∧ frame_num % (skip + 1) ≠ 0 then
      get_frames_aux skip (frame_num + 1) rest
    else
      (frame_num, frame) :: get_frames_aux skip (frame_num + 1) rest

/-- Embedding of `VideoProcessor.get_frames(skip)`: iterate from `frame_num = 0`. -/
def get_frames (skip : ℕ) (frames : List α) : List (ℕ × α) :=
  get_frames_aux skip 0 frames

/-! ## video_processor.py — construction and close -/

/-- Result of one `subprocess.run` call, or of one external decode step:
the process may be absent (`FileNotFoundError`), time out
(`subprocess.TimeoutExpired`), or complete with a return code and captured
standard output. -/
inductive RunResult where
  | fileNotFound
  | timedOut
  | completed (returncode : ℤ) (stdout : String)
deriving DecidableEq

/-- An OpenCV capture handle as the repository relies on it: whether the
stream is currently open, how many frames were consumed, and how many
effective resource releases happened.  `release` on an already released
capture is a documented no-op (it is called by the destructor and by
re-`open`), so releasing is idempotent and counts at most once. -/
structure VideoCapture where
  opened : Bool
  pos : ℕ
  releases : ℕ
deriving DecidableEq

/-- Collaborator semantics of `cv2.VideoCapture.release`: close the stream if
open (one effective release), otherwise do nothing. -/
def VideoCapture.release (c : VideoCapture) : VideoCapture :=
  if c.opened then ⟨false, c.pos, c.releases + 1⟩ else c

/-- The `self.cap` field of `VideoProcessor`; `if self.cap:` guards against
an absent capture object. -/
structure VideoProcessorState where
  cap : Option VideoCapture
deriving DecidableEq

/-- Embedding of `VideoProcessor.close` (video_processor.py lines 121–126):
`if self.cap: self.cap.release()`. -/
def VideoProcessor.close (s : VideoProcessorState) : VideoProcessorState :=
  match s.cap with
  | none => s
  | some c => ⟨some c.release⟩

/-- The source actually opened by `VideoProcessor.__init__`: a file path,
or a camera/device index when the source string parses as an integer. -/
inductive SourcePath where
  | file (path : String)
  | camera (index : ℤ)
deriving DecidableEq

/-- The two `ValueError` sites of `VideoProcessor.__init__`
(video_processor.py lines 33 and 40): the file-not-found check and the
decoder-open failure. -/
inductive VPError where
  | fileNotFound (path : String)
  | cannotOpen
deriving DecidableEq

/-- Characters Python strips around an integer literal in `int(str)`. -/
def isPySpace (c : Char) : Bool :=
  c = ' ' || c = '\t' || c = '\n' || c = '\r' || c = '\x0b' || c = '\x0c'

/-- Decimal value of a digit string. -/
def digitsToNat (ds : List Char) : ℕ :=
  ds.foldl (fun acc c => 10 * acc + (c.toNat - 48)) 0

/-- Modelled from the Python built-in `int(str)` used at
video_processor.py line 29: surrounding whitespace is ignored, an optional
sign is followed by one or more decimal digits; anything else raises
`ValueError`, modelled as `none`.  (Underscore digit grouping and
non-ASCII digits, which CPython also accepts, are not modelled; the model
only ever accepts strings CPython accepts.) -/
def pyParseInt (s : String) : Option ℤ :=
  let t := ((s.toList.dropWhile isPySpace).reverse.dropWhile isPySpace).reverse
  let core : List Char → Option ℤ := fun ds =>
    if ds ≠ [] ∧ ds.all Char.isDigit then some (digitsToNat ds) else none
  match t with
  | '-' :: ds => (core ds).map (fun n => -n)
  | '+' :: ds => core ds
  | ds => core ds

/-- Environment of `VideoProcessor.__init__`: which paths exist on disk
(`os.path.exists`) and which sources the decoder can open
(`cv2.VideoCapture(...).isOpened()`). -/
structure VPEnv where
  file_exists : String → Bool
  opens : SourcePath → Bool

/-- Embedding of `VideoProcessor.__init__` (video_processor.py lines 17–40): try
`int(video_path)`; on success use the camera index and perform no
file-existence check; on `ValueError` require the file to exist; then open
the source and fail with the decoder-open error if that fails. -/
def VideoProcessor.init (env : VPEnv) (video_path : String) : Except VPError SourcePath :=
  let src : Except VPError SourcePath :=
    match pyParseInt video_path with
    | some n => .ok (.camera n)
    | none =>
      if env.file_exists video_path then .ok (.file video_path)
      else .error (.fileNotFound video_path)
  match src with
  | .error e => .error e
  | .ok p => if env.opens p then .ok p else .error .cannotOpen

/-! ## audio_processor.py — extract_audio -/

/-- Environment of `AudioProcessor.extract_audio` (audio_processor.py
lines 50–141), one entry per external interaction, in program order:
the `ffmpeg -version` availability check, the extraction run, the
`ffprobe` duration query, the parse of its stdout by `float(...)`
(`none` when that raises), and the optional `pydub` load of the produced
file (`none` when pydub is unavailable or loading fails). -/
structure AudioEnv (α : Type) where
  versionCheck : RunResult
  extractRun : RunResult
  probeRun : RunResult
  parseDuration : String → Option ℚ
  pydubLoad : Option α

/-- The ffprobe block (lines 110–126): it sits in its own `try/except`
whose handler sets the duration to `0`, so a missing/timed-out probe or an
unparseable stdout yields `0`; the probe's return code is never checked. -/
def probe_duration (env : AudioEnv α) : ℚ :=
  match env.probeRun with
  | .completed _ out => (env.parseDuration out).getD 0
  | _ => 0

/-- Body of the outer `try:` of `extract_audio` (lines 76–137), with
exception propagation made explicit: a missing or timed-out `ffmpeg`
extraction run raises (`FileNotFoundError` / `TimeoutExpired`); a non-zero
exit returns `None` after a warning.  On success the probed duration is
stored and `self.audio_data` (the pydub load, possibly `None`) is
returned. -/
def extract_audio_body (env : AudioEnv α) : Except RunResult (Option α × ℚ) :=
  match env.extractRun with
  | .fileNotFound => .error .fileNotFound
  | .timedOut => .error .timedOut
  | .completed rc _ =>
    if rc ≠ 0 then .ok (none, 0)
    else .ok (env.pydubLoad, probe_duration env)

/-- Embedding of `AudioProcessor.extract_audio` (audio_processor.py lines 50–141):
first the `ffmpeg -version` check — absence, timeout or non-zero exit all
return `None` after a warning; then the guarded body, whose exceptions the
outer `except Exception` converts into a warned `None`.  The result pairs
the Python return value with the `self.audio_duration` field after the
call. -/
def extract_audio (env : AudioEnv α) : Option α × ℚ :=
  match env.versionCheck with
  | .fileNotFound => (none, 0)
  | .timedOut => (none, 0)
  | .completed rc _ =>
    if rc ≠ 0 then (none, 0)
    else
      match extract_audio_body env with
      | .ok r => r
      | .error _ => (none, 0)

/-! ## Helper lemmas -/

/-- The claim-side floor formula for the luminance index agrees with
natural-number division. -/
theorem natFloor_div_mul (a b : ℕ) :
    ⌊(a : ℚ) / 255 * (b : ℚ)⌋₊ = a * b / 255 := by
  rw [div_mul_eq_mul_div, ← Nat.cast_mul]
  exact_mod_cast Rat.natFloor_natCast_div_natCast (a * b) 255

/-- The luminance index is bounded by the top charset index for samples
in `[0, 255]`. -/
theorem lumIndex_le (charset_len s : ℕ) (hs : s ≤ 255) :
    lumIndex charset_len s ≤ charset_len - 1 := by
  unfold lumIndex
  calc s * (charset_len - 1) / 255 ≤ 255 * (charset_len - 1) / 255 :=
        Nat.div_le_div_right (Nat.mul_le_mul_right _ hs)
    _ = charset_len - 1 := Nat.mul_div_cancel_left _ (by norm_num)

/-- Lemma: `roundChannel6` is nearest-integer rounding of `c / 255 * 5`. -/
theorem roundChannel6_eq_round (c : ℕ) :
    (roundChannel6 c : ℤ) = round ((c : ℚ) / 255 * 5) := by
  rw [round_eq]
  have h : (c : ℚ) / 255 * 5 + 1 / 2 = ((10 * c + 255 : ℕ) : ℚ) / ((510 : ℕ) : ℚ) := by
    push_cast
    ring
  rw [h, Rat.floor_natCast_div_natCast]
  unfold roundChannel6
  omega

/-! ## Claim theorems -/

/-- C1: with any charset of length `N ≥ 2`, each pixel's glyph is
`charset[⌊(s/255)·(N−1)⌋]` for the luminance sample `s ∈ [0,255]`, the
index (vacuously) clamped to `[0, N−1]`; for charset `"@#. "`, luminance
`0 ↦ '@'`, `255 ↦ ' '`, `128 ↦ '#'`. -/
theorem mapLuminance_spec (charset : List Char) (hN : 2 ≤ charset.length)
    (s : ℕ) (hs : s ≤ 255) :
    lumIndex charset.length s =
      ⌊(s : ℚ) / 255 * ((charset.length - 1 : ℕ) : ℚ)⌋₊ ∧
    lumIndex charset.length s =
      min (⌊(s : ℚ) / 255 * ((charset.length - 1 : ℕ) : ℚ)⌋₊) (charset.length - 1) ∧
    mapLuminance charset s = charset.getD (lumIndex charset.length s) ' ' ∧
    mapLuminance exampleCharset 0 = '@' ∧
    mapLuminance exampleCharset 255 = ' ' ∧
    mapLuminance exampleCharset 128 = '#' := by
  have hfl : ⌊(s : ℚ) / 255 * ((charset.length - 1 : ℕ) : ℚ)⌋₊ =
      lumIndex charset.length s := natFloor_div_mul s (charset.length - 1)
  refine ⟨hfl.symm, ?_, rfl, by decide, by decide, by decide⟩
  rw [hfl, min_eq_left (lumIndex_le charset.length s hs)]

/-- C1 witness: the worked example at luminance 128. -/
theorem mapLuminance_spec_witness : mapLuminance exampleCharset 128 = '#' :=
  (mapLuminance_spec exampleCharset (by decide) 128 (by decide)).2.2.2.2.2

/-- C6: for any charset length `N ≥ 2` and samples in `[0,255]`, the
luminance index lies in `[0, N−1]` and is monotone non-decreasing in the
sample, so non-decreasing luminance never yields a darker glyph. -/
theorem lumIndex_range_mono (charset_len s s' : ℕ) (hN : 2 ≤ charset_len)
    (hs : s ≤ 255) (hs' : s' ≤ 255) (hss : s ≤ s') :
    lumIndex charset_len s ≤ charset_len - 1 ∧
    lumIndex charset_len s ≤ lumIndex charset_len s' := by
  refine ⟨lumIndex_le charset_len s hs, ?_⟩
  exact Nat.div_le_div_right (Nat.mul_le_mul_right _ hss)

/-- C6 witness: charset length 4, samples 100 ≤ 200. -/
theorem lumIndex_range_mono_witness :
    lumIndex 4 100 ≤ 3 ∧ lumIndex 4 100 ≤ lumIndex 4 200 :=
  lumIndex_range_mono 4 100 200 (by decide) (by decide) (by decide) (by decide)

/-- C5: the 256-color quantizer returns
`16 + 36·round(r/255·5) + 6·round(g/255·5) + round(b/255·5)`, always in
the color-cube range `[16, 231]`; `(0,0,0) ↦ 16` and
`(255,255,255) ↦ 231`. -/
theorem rgb_to_256_color_spec (r g b : ℕ) (hr : r ≤ 255) (hg : g ≤ 255) (hb : b ≤ 255) :
    (rgb_to_256_color r g b : ℤ) =
      16 + 36 * round ((r : ℚ) / 255 * 5) + 6 * round ((g : ℚ) / 255 * 5) +
        round ((b : ℚ) / 255 * 5) ∧
    16 ≤ rgb_to_256_color r g b ∧ rgb_to_256_color r g b ≤ 231 ∧
    rgb_to_256_color 0 0 0 = 16 ∧ rgb_to_256_color 255 255 255 = 231 := by
  refine ⟨?_, ?_, ?_, by decide, by decide⟩
  · rw [← roundChannel6_eq_round, ← roundChannel6_eq_round, ← roundChannel6_eq_round]
    unfold rgb_to_256_color
    push_cast
    ring
  · unfold rgb_to_256_color
    omega
  · unfold rgb_to_256_color roundChannel6
    omega

/-- C5 witness: the quantizer at (255, 128, 0). -/
theorem rgb_to_256_color_spec_witness :
    16 ≤ rgb_to_256_color 255 128 0 ∧ rgb_to_256_color 255 128 0 ≤ 231 :=
  ⟨(rgb_to_256_color_spec 255 128 0 (by decide) (by decide) (by decide)).2.1,
   (rgb_to_256_color_spec 255 128 0 (by decide) (by decide) (by decide)).2.2.1⟩

/-- C2 counterexample: at RGB (255, 255, 91) the exact average brightness
`(255+255+91)/3 = 200.33…` exceeds 200, yet the code computes
`brightness = 601 // 3 = 200`, does not take the lightest slot (37), and
falls through to yellow (33). -/
theorem rgb_to_ansi_16_avg_counterexample :
    rgb_to_ansi_16 255 255 91 = 33 ∧
    (200 : ℚ) < ((255 : ℚ) + 255 + 91) / 3 ∧
    (33 : ℕ) ≠ 37 := by
  refine ⟨by decide, by norm_num, by decide⟩

/-- C2 amended: the thresholds apply to the floored integer average
`(r+g+b) // 3`, so the darkest slot is taken iff `r+g+b < 150` and the
lightest iff `r+g+b ≥ 603`; in between, a strictly dominant channel picks
red/green/blue, then `r > b` picks yellow, and blue is the final fallback;
`(0,0,0) ↦ 30`, `(255,255,255) ↦ 37`, `(255,0,0) ↦ 31`. -/
theorem rgb_to_ansi_16_spec (r g b : ℕ) :
    (r + g + b < 150 → rgb_to_ansi_16 r g b = 30) ∧
    (603 ≤ r + g + b → rgb_to_ansi_16 r g b = 37) ∧
    (150 ≤ r + g + b → r + g + b ≤ 602 →
      ((g < r ∧ b < r → rgb_to_ansi_16 r g b = 31) ∧
       (r < g ∧ b < g → rgb_to_ansi_16 r g b = 32) ∧
       (r < b ∧ g < b → rgb_to_ansi_16 r g b = 34) ∧
       (¬(g < r ∧ b < r) → ¬(r < g ∧ b < g) → ¬(r < b ∧ g < b) → b < r →
         rgb_to_ansi_16 r g b = 33) ∧
       (r ≤ b → g ≤ b → ¬(r < b ∧ g < b) → rgb_to_ansi_16 r g b = 34))) ∧
    rgb_to_ansi_16 0 0 0 = 30 ∧
    rgb_to_ansi_16 255 255 255 = 37 ∧
    rgb_to_ansi_16 255 0 0 = 31 := by
  simp only [rgb_to_ansi_16]
  refine ⟨?_, ?_, ?_, by decide, by decide, by decide⟩
  · intro h
    split_ifs <;> omega
  · intro h
    split_ifs <;> omega
  · intro h1 h2
    refine ⟨?_, ?_, ?_, ?_, ?_⟩ <;> (intros; split_ifs <;> omega)

/-- C2 witness: the mid-brightness red-dominant input (200, 50, 50). -/
theorem rgb_to_ansi_16_spec_witness : rgb_to_ansi_16 200 50 50 = 31 :=
  ((rgb_to_ansi_16_spec 200 50 50).2.2.1 (by norm_num) (by norm_num)).1 (by norm_num)

/-- C3 counterexample: for output width 10 and a frame of height 7 and
width 4, the exact value is `10 · (7/4) · 0.55 = 9.625`; the code's
`int(...)` truncation yields 9, while rounding to the nearest integer
would yield 10. -/
theorem new_height_round_counterexample :
    new_height 10 7 4 = 9 ∧
    round ((10 : ℚ) * ((7 : ℚ) / (4 : ℚ)) * ASPECT_RATIO_CORRECTION) = 10 ∧
    (9 : ℤ) ≠ 10 := by
  refine ⟨by norm_num [new_height, ASPECT_RATIO_CORRECTION], ?_, by decide⟩
  norm_num [ASPECT_RATIO_CORRECTION, round_eq]

/-- C3 amended: the output height is the truncation (floor)
`⌊outputWidth · (h/w) · 0.55⌋`, equivalently the integer division
`(outputWidth · h · 11) / (20 · w)`; it is not rounded to nearest. -/
theorem new_height_spec (width h w : ℕ) (hw : 0 < w) :
    new_height width h w = ((width * h * 11) / (w * 20) : ℕ) ∧
    0 ≤ new_height width h w := by
  have hq : (width : ℚ) * ((h : ℚ) / (w : ℚ)) * ASPECT_RATIO_CORRECTION =
      ((width * h * 11 : ℕ) : ℚ) / ((w * 20 : ℕ) : ℚ) := by
    have hw' : (w : ℚ) ≠ 0 := by exact_mod_cast hw.ne'
    unfold ASPECT_RATIO_CORRECTION
    push_cast
    field_simp
    ring
  constructor
  · unfold new_height
    rw [hq, Rat.floor_natCast_div_natCast]
    omega
  · unfold new_height
    rw [hq]
    positivity

/-- C3 witness: output width 120 for a 16×9-shaped frame. -/
theorem new_height_spec_witness : new_height 120 9 16 = 37 :=
  (new_height_spec 120 9 16 (by norm_num)).1.trans (by norm_num)

/-- C4: `wait_for_frame` sleeps exactly
`max(0, expected − actual − processingTime)` where `actual` is the audio
clock when playing, else wall-clock elapsed since session start; the sleep
is never negative; the frame counter increments by exactly one; and for
fixed speed and frame duration the expected time is non-decreasing across
successive calls. -/
theorem wait_for_frame_spec (sync : AudioSynchronizer) (speed processing : ℚ)
    (audio_playing : Bool) (audio_time now : ℚ)
    (hspeed : 0 < speed) (hdur : 0 ≤ sync.frame_duration) :
    (wait_for_frame sync speed processing audio_playing audio_time now).1 =
      max 0 (expected_time sync.frame_count sync.frame_duration speed -
        (if audio_playing then audio_time else now - sync.start_time.getD now) -
        processing) ∧
    0 ≤ (wait_for_frame sync speed processing audio_playing audio_time now).1 ∧
    (wait_for_frame sync speed processing audio_playing audio_time now).2.frame_count =
      sync.frame_count + 1 ∧
    (wait_for_frame sync speed processing audio_playing audio_time now).2.frame_duration =
      sync.frame_duration ∧
    expected_time sync.frame_count sync.frame_duration speed ≤
      expected_time
        (wait_for_frame sync speed processing audio_playing audio_time now).2.frame_count
        (wait_for_frame sync speed processing audio_playing audio_time now).2.frame_duration
        speed := by
  have hmax : (wait_for_frame sync speed processing audio_playing audio_time now).1 =
      max 0 (expected_time sync.frame_count sync.frame_duration speed -
        (if audio_playing then audio_time else now - sync.start_time.getD now) -
        processing) := by
    unfold wait_for_frame expected_time
    dsimp only
    rcases le_or_lt (sync.frame_count * sync.frame_duration / speed -
        (if audio_playing then audio_time else now - sync.start_time.getD now) -
        processing) 0 with hle | hlt
    · rw [if_neg (not_lt.mpr hle), max_eq_left hle]
    · rw [if_pos hlt, max_eq_right hlt.le]
  refine ⟨hmax, hmax ▸ le_max_left 0 _, rfl, rfl, ?_⟩
  · unfold wait_for_frame expected_time
    dsimp only
    rw [div_le_div_iff_of_pos_right hspeed]
    have : (sync.frame_count : ℚ) ≤ (sync.frame_count : ℚ) + 1 := by linarith
    calc (sync.frame_count : ℚ) * sync.frame_duration
        ≤ ((sync.frame_count : ℚ) + 1) * sync.frame_duration :=
          mul_le_mul_of_nonneg_right this hdur
      _ = ((sync.frame_count + 1 : ℕ) : ℚ) * sync.frame_duration := by push_cast; ring

/-- C4 witness: a fresh 30 fps synchronizer on its first call. -/
theorem wait_for_frame_spec_witness :
    (wait_for_frame (AudioSynchronizer.init 30) 1 0 false 0 0).1 = 0 ∧
    (wait_for_frame (AudioSynchronizer.init 30) 1 0 false 0 0).2.frame_count = 1 := by
  have h := wait_for_frame_spec (AudioSynchronizer.init 30) 1 0 false 0 0
    (by norm_num) (by norm_num [AudioSynchronizer.init])
  refine ⟨h.1.trans ?_, h.2.2.1⟩
  norm_num [expected_time, AudioSynchronizer.init]

/-- Lemma: `get_frames_aux` from counter `i` yields exactly the multiples of
`skip + 1` among the enumerated stream. -/
theorem get_frames_aux_eq (skip : ℕ) (i : ℕ) (frames : List α) :
    get_frames_aux skip i frames =
      (frames.enumFrom i).filter (fun p => p.1 % (skip + 1) == 0) := by
  induction frames generalizing i with
  | nil => rfl
  | cons f rest ih =>
    rw [List.enumFrom_cons, List.filter_cons]
    by_cases hs : 0 < skip
    · by_cases hm : i % (skip + 1) = 0
      · simp [get_frames_aux, hs, hm, ih]
      · simp [get_frames_aux, hs, hm, ih]
    · have hz : skip = 0 := by omega
      subst hz
      simp [get_frames_aux, Nat.mod_one, ih]

/-- The enumeration of a stream from `i` has strictly increasing indices. -/
theorem pairwise_fst_lt_enumFrom (i : ℕ) (l : List α) :
    (l.enumFrom i).Pairwise (fun p q => p.1 < q.1) := by
  induction l generalizing i with
  | nil => simp
  | cons a l ih =>
    rw [List.enumFrom_cons]
    refine List.Pairwise.cons ?_ (ih (i + 1))
    intro p hp
    exact lt_of_lt_of_le (Nat.lt_succ_self i) (List.le_fst_of_mem_enumFrom hp)

/-- C7: `get_frames skip` yields exactly the enumerated frames whose index
is a multiple of `skip + 1` (so `skip = 0` yields every frame), with
indices counted consecutively from 0 across all decoded frames, in
strictly increasing order; each yielded pair `(i, f)` satisfies
`frames[i] = f`. -/
theorem get_frames_spec (skip : ℕ) (frames : List α) :
    get_frames skip frames =
      frames.enum.filter (fun p => p.1 % (skip + 1) == 0) ∧
    get_frames 0 frames = frames.enum ∧
    (get_frames skip frames).Pairwise (fun p q => p.1 < q.1) ∧
    ∀ p ∈ get_frames skip frames,
      p.1 % (skip + 1) = 0 ∧ frames.get? p.1 = some p.2 := by
  have hmain : ∀ (k : ℕ), get_frames k frames =
      frames.enum.filter (fun p => p.1 % (k + 1) == 0) := fun k =>
    get_frames_aux_eq k 0 frames
  refine ⟨hmain skip, ?_, ?_, ?_⟩
  · rw [hmain 0]
    apply List.filter_eq_self.mpr
    intro p _
    simp [Nat.mod_one]
  · rw [hmain skip]
    exact (pairwise_fst_lt_enumFrom 0 frames).filter _
  · intro p hp
    rw [hmain skip] at hp
    have hmem := List.mem_of_mem_filter hp
    have hpred := List.of_mem_filter hp
    refine ⟨by simpa using hpred, ?_⟩
    rw [List.get?_eq_getElem?]
    exact List.mem_enum_iff_getElem?.mp hmem

/-- C7 witness: skip 2 on a four-frame stream yields indices 0 and 3. -/
theorem get_frames_spec_witness :
    get_frames 2 [10, 20, 30, 40] = [(0, 10), (3, 40)] :=
  (get_frames_spec 2 [10, 20, 30, 40]).1.trans (by decide)

/-- C8: `extract_audio` returns `None` (and raises nothing — the function
is total, mirroring the outer `except Exception` handler) whenever the
`ffmpeg -version` check finds the utility missing, times out, or sees a
non-zero exit, and likewise whenever the extraction run itself is missing,
times out, or exits non-zero; the session is left in the disabled
(no-audio) state with duration 0. -/
theorem extract_audio_degrades_gracefully {α : Type} (env : AudioEnv α)
    (h : env.versionCheck = .fileNotFound ∨ env.versionCheck = .timedOut ∨
      (∃ rc out, env.versionCheck = .completed rc out ∧ rc ≠ 0) ∨
      env.extractRun = .fileNotFound ∨ env.extractRun = .timedOut ∨
      (∃ rc out, env.extractRun = .completed rc out ∧ rc ≠ 0)) :
    extract_audio env = (none, 0) := by
  unfold extract_audio extract_audio_body
  rcases h with h | h | ⟨rc, out, h, hrc⟩ | h | h | ⟨rc, out, h, hrc⟩ <;>
    rcases hv : env.versionCheck with _ | _ | ⟨rcv, outv⟩ <;> simp_all

/-- C8 witness: ffmpeg missing at the availability check. -/
theorem extract_audio_degrades_gracefully_witness :
    extract_audio
      (⟨.fileNotFound, .fileNotFound, .fileNotFound, fun _ => none,
        (none : Option Unit)⟩ : AudioEnv Unit) = (none, 0) :=
  extract_audio_degrades_gracefully _ (Or.inl rfl)

/-- C9: `VideoProcessor.close` is idempotent — any number `n ≥ 1` of calls
equals a single call, on any state including a partially consumed stream
(arbitrary `pos`) — and starting from an open capture the underlying
resource is released exactly once. -/
theorem close_idempotent (s : VideoProcessorState) (pos n : ℕ) (hn : 1 ≤ n) :
    VideoProcessor.close (VideoProcessor.close s) = VideoProcessor.close s ∧
    VideoProcessor.close^[n] s = VideoProcessor.close s ∧
    (VideoProcessor.close^[n] ⟨some ⟨true, pos, 0⟩⟩).cap = some ⟨false, pos, 1⟩ := by
  have hidem : ∀ t : VideoProcessorState,
      VideoProcessor.close (VideoProcessor.close t) = VideoProcessor.close t := by
    intro t
    rcases t with ⟨_ | ⟨⟨o, p, r⟩⟩⟩
    · rfl
    · cases o <;> rfl
  have hiter : ∀ (m : ℕ) (t : VideoProcessorState), 1 ≤ m →
      VideoProcessor.close^[m] t = VideoProcessor.close t := by
    intro m
    induction m with
    | zero => intro t h; omega
    | succ k ih =>
      intro t _
      rcases Nat.eq_zero_or_pos k with hk | hk
      · subst hk; rfl
      · rw [Function.iterate_succ_apply', ih t hk, hidem t]
  refine ⟨hidem s, hiter n s hn, ?_⟩
  rw [hiter n _ hn]
  rfl

/-- C9 witness: three closes of a capture open at frame 5. -/
theorem close_idempotent_witness :
    VideoProcessor.close^[3] (⟨some ⟨true, 5, 0⟩⟩ : VideoProcessorState) =
      VideoProcessor.close ⟨some ⟨true, 5, 0⟩⟩ ∧
    (VideoProcessor.close^[3] (⟨some ⟨true, 5, 0⟩⟩ : VideoProcessorState)).cap =
      some ⟨false, 5, 1⟩ :=
  ⟨(close_idempotent ⟨some ⟨true, 5, 0⟩⟩ 5 3 (by norm_num)).2.1,
   (close_idempotent ⟨some ⟨true, 5, 0⟩⟩ 5 3 (by norm_num)).2.2⟩

/-- C10: when the source string parses as an integer, construction treats
it as a camera index and never performs the file-existence check — for any
environment, including one where no file exists, the result is either a
successful camera open or the decoder-open error, and the file-not-found
error is never raised. -/
theorem vp_init_camera_skips_file_check (env : VPEnv) (s : String) (n : ℤ)
    (h : pyParseInt s = some n) :
    (VideoProcessor.init env s = .ok (.camera n) ∨
      VideoProcessor.init env s = .error .cannotOpen) ∧
    ∀ p, VideoProcessor.init env s ≠ .error (.fileNotFound p) := by
  unfold VideoProcessor.init
  rw [h]
  by_cases ho : env.opens (.camera n) <;> simp [ho]

/-- C10 witness: source `"0"` with no file on disk and a decoder that
cannot open anything yields the decoder-open error, not file-not-found. -/
theorem vp_init_camera_skips_file_check_witness :
    VideoProcessor.init ⟨fun _ => false, fun _ => false⟩ "0" ≠
      .error (.fileNotFound "0") :=
  (vp_init_camera_skips_file_check ⟨fun _ => false, fun _ => false⟩ "0" 0 (by decide)).2 "0"

end VideoToAscii
